import Mathlib

/-!
Verification of the MXNet push-pull glue of byteps
(src/byteps/mxnet/ops.cc) against its natural-language specification.

The file shallowly embeds the functions of ops.cc:

* `GetOpName` — naming utility backed by the process-wide atomic counter
  `op_count` (state-passing; `runAnonCalls` additionally gives an interleaved
  small-step semantics of concurrent anonymous calls, where each call performs
  two separate atomic accesses: the fetch_add and the later load used to
  build the string, exactly as in the source).
* `InvokeCompleteCallback` — the completion bridge to the dmlc callback.
* `DoInit`, `DoFirstStage`, `DoSecondStage` — the three stage bodies, as
  functions of the environment they observe (result of
  common::CheckInitialized, device id, presence of context.cpubuff, result of
  the common:: enqueue call).
* `byteps_mxnet_push_pull_async` — the entry point, returning the tensor
  name, the list of tasks submitted to the MXNet engine with their declared
  read/write dependencies, and the divisor of the unconditional
  `*tensor /= num_worker` scaling step.

The host scheduler (MXNet Engine) is an external collaborator; its
dependency-ordering contract is modelled from the specification
(`respectsDeps`) in order to state the temporal claims.
-/

namespace BytePS

/-- common::Status as observed in ops.cc: ok() or an error carrying a
reason() string. -/
inductive Status where
  | ok : Status
  | error (reason : String) : Status
deriving DecidableEq, Repr

/-- One invocation of the MXNet completion callback: either the
zero-argument success call or the call carrying a dmlc::Error whose message
is recorded. -/
inductive CallbackInvocation where
  | success : CallbackInvocation
  | failure (msg : String) : CallbackInvocation
deriving DecidableEq, Repr

/-- InvokeCompleteCallback from ops.cc: on status.ok() invoke on_complete()
once; otherwise invoke on_complete(&dmlc::Error(status.reason())) once.  The
returned list records the invocations performed, in order. -/
def InvokeCompleteCallback (status : Status) : List CallbackInvocation :=
  match status with
  | .ok => [.success]
  | .error reason => [.failure reason]

/-- GetOpName from ops.cc, with the process-wide counter op_count passed as
explicit state.  When a user name is supplied the counter is untouched;
otherwise the source first performs op_count.fetch_add(1) and then separately
loads op_count to build the string, so sequentially the suffix is the
post-increment value. -/
def GetOpName (pfx : String) (name : Option String) (op_count : Nat) :
    String × Nat :=
  match name with
  | some n => (pfx ++ "." ++ n, op_count)
  | none => (pfx ++ ".noname." ++ toString (op_count + 1), op_count + 1)

/-- State of an interleaved execution of several anonymous GetOpName calls:
the shared counter, the ids of the calls that have already performed their
fetch_add, and the names produced so far (paired with the id of the call
that produced them). -/
structure GetOpNameRun where
  counter : Nat
  incremented : List Nat
  names : List (Nat × String)
deriving DecidableEq, Repr

/-- One atomic step of call `i` in an interleaved execution of anonymous
GetOpName calls.  The source performs two separate atomic accesses: the
fetch_add (whose returned value is discarded) and the later load of op_count
used to build the string.  The first step of a call is its fetch_add, the
second its load. -/
def anonStep (pfx : String) (s : GetOpNameRun) (i : Nat) : GetOpNameRun :=
  if i ∈ s.incremented then
    { s with names := s.names ++ [(i, pfx ++ ".noname." ++ toString s.counter)] }
  else
    { s with counter := s.counter + 1, incremented := s.incremented ++ [i] }

/-- Run a schedule (a list of call ids; each id occurs twice, its first
occurrence being the fetch_add and its second the load) from the initial
state: op_count is a zero-initialized namespace-scope std::atomic_int. -/
def runAnonCalls (pfx : String) (sched : List Nat) : GetOpNameRun :=
  sched.foldl (anonStep pfx) ⟨0, [], []⟩

/-- CPU_DEVICE_ID from cuda_util.h (a header of this repository outside
src/); its concrete value is irrelevant to the claims, only whether a device
equals it. -/
def CPU_DEVICE_ID : Int := -1

/-- Environment one stage body observes when it runs: the status
common::CheckInitialized() returns at that moment, the device id of the
tensor, whether context.cpubuff is non-null, and the status returned by the
common:: enqueue/init call. -/
structure StageEnv where
  checkInit : Status
  device : Int
  cpubuff : Bool
  enqueueResult : Status
deriving DecidableEq, Repr

/-- Outcome of one stage body. `thrown r` — ThrowIfError(CheckInitialized())
raised before anything else; `fatal msg` — the BPS_CHECK(context.cpubuff)
aborted; `enqueueCalled q st` — the common:: enqueue call for queue `q` was
reached and returned `st` (ThrowIfError(st) then re-raises exactly when `st`
is an error, but the operation has been handed over when `st` is ok). -/
inductive StageOutcome where
  | thrown (reason : String)
  | fatal (msg : String)
  | enqueueCalled (queue : String) (result : Status)
deriving DecidableEq, Repr

/-- DoInit from ops.cc: ThrowIfError(CheckInitialized()), then
common::InitTensor with a callback wrapping InvokeCompleteCallback, then
ThrowIfError on its result.  No staging-buffer check. -/
def DoInit (env : StageEnv) : StageOutcome :=
  match env.checkInit with
  | .error r => .thrown r
  | .ok => .enqueueCalled "INIT" env.enqueueResult

/-- DoFirstStage from ops.cc: ThrowIfError(CheckInitialized()); if the device
is not CPU_DEVICE_ID, BPS_CHECK(context.cpubuff) aborts fatally when the
staging buffer is absent; otherwise common::EnqueueTensorPush is called with
a callback wrapping InvokeCompleteCallback, and its result goes through
ThrowIfError. -/
def DoFirstStage (env : StageEnv) (name : String) : StageOutcome :=
  match env.checkInit with
  | .error r => .thrown r
  | .ok =>
    if env.device ≠ CPU_DEVICE_ID ∧ env.cpubuff = false then
      .fatal (name ++ ": cpu buffer not initialized.")
    else
      .enqueueCalled "PUSH" env.enqueueResult

/-- DoSecondStage from ops.cc: identical shape to DoFirstStage but enqueues
into the pull (BROADCAST) queue via common::EnqueueTensorPull. -/
def DoSecondStage (env : StageEnv) (name : String) : StageOutcome :=
  match env.checkInit with
  | .error r => .thrown r
  | .ok =>
    if env.device ≠ CPU_DEVICE_ID ∧ env.cpubuff = false then
      .fatal (name ++ ": cpu buffer not initialized.")
    else
      .enqueueCalled "BROADCAST" env.enqueueResult

/-- Callback invocations a stage produces once the aggregation service later
reports `serviceStatus` for it: the registered lambda wraps
InvokeCompleteCallback, and it is registered only when the enqueue call was
reached and succeeded. -/
def stageCallbackInvocations (outcome : StageOutcome) (serviceStatus : Status) :
    List CallbackInvocation :=
  match outcome with
  | .enqueueCalled _ .ok => InvokeCompleteCallback serviceStatus
  | _ => []

/-- One task handed to Engine::Get()->PushAsync: its debug name and the
declared read and write dependencies (MXNet engine variable ids). -/
structure EngineTask where
  opName : String
  reads : List Nat
  writes : List Nat
deriving DecidableEq, Repr, Inhabited

/-- Environment byteps_mxnet_push_pull_async observes from its
collaborators.  `checkInit` is the status common::CheckInitialized() would
return during the call; the source never consults it synchronously (it is
only consulted by the stage bodies when the submitted tasks later run),
which is exactly what the precondition claims are about. -/
structure PushPullEnv where
  name : Option String
  opCount : Nat
  tensorInitialized : Bool
  numWorkers : Nat
  tensorVar : Nat
  checkInit : Status
deriving DecidableEq, Repr

/-- Result of the synchronous body of byteps_mxnet_push_pull_async: the
tensor name built by GetOpName, the new value of op_count, the tasks
submitted to the engine in submission order with their declared read/write
sets, and the divisor of the final unconditional `*tensor /= num_worker`. -/
structure PushPullResult where
  tensorName : String
  newOpCount : Nat
  tasks : List EngineTask
  scaledBy : Nat
deriving DecidableEq, Repr

/-- byteps_mxnet_push_pull_async from ops.cc: build the name; if
common::IsTensorInitialized is false, submit the init task (reads {},
writes {tensor var}); always submit the first-stage task (reads
{tensor var}, writes {}) and the second-stage task (reads {}, writes
{tensor var}); finally divide the tensor by ps::NumWorkers().  No
precondition is checked before the submissions. -/
def byteps_mxnet_push_pull_async (env : PushPullEnv) : PushPullResult :=
  let p := GetOpName "byteps" env.name env.opCount
  { tensorName := p.1
    newOpCount := p.2
    tasks :=
      (if env.tensorInitialized then []
       else [⟨"BytePSInit", [], [env.tensorVar]⟩]) ++
      [⟨"BytePSFirstStage", [env.tensorVar], []⟩,
       ⟨"BytePSSecondStage", [], [env.tensorVar]⟩]
    scaledBy := env.numWorkers }

/-- Caller-visible outcome of one whole invocation in which the push stage
later runs under `stage` and the aggregation service reports
`pushServiceStatus` for the push: the push task's callback invocations, and
the tensor's value (as a rational) after the synchronous scaling step at the
end of byteps_mxnet_push_pull_async, which divides by scaledBy regardless of
any stage status. -/
def runPushPull (env : PushPullEnv) (stage : StageEnv)
    (pushServiceStatus : Status) (v : ℚ) : List CallbackInvocation × ℚ :=
  let r := byteps_mxnet_push_pull_async env
  let outcome := DoFirstStage stage r.tensorName
  (stageCallbackInvocations outcome pushServiceStatus, v / (r.scaledBy : ℚ))

/-- Modelled from the spec: the host scheduler contract (spec section 5).
A later-submitted task conflicts with an earlier one when it reads a
variable the earlier writes, or writes a variable the earlier reads or
writes. -/
def conflict (t u : EngineTask) : Prop :=
  (∃ v, v ∈ t.writes ∧ v ∈ u.reads) ∨
  (∃ v, (v ∈ t.reads ∨ v ∈ t.writes) ∧ v ∈ u.writes)

/-- Modelled from the spec: an assignment of start/finish instants to the
tasks of a submission list (by submission index) respects the dependency
contract when every later-submitted conflicting task starts strictly after
the earlier one finishes. -/
def respectsDeps (tasks : List EngineTask) (start fin : Nat → Nat) : Prop :=
  ∀ i j, i < j → j < tasks.length →
    conflict (tasks.getD i default) (tasks.getD j default) → fin i < start j

end BytePS

namespace BytePS

/-- C7: InvokeCompleteCallback invokes the callback exactly once; with no
error argument exactly when the status is Ok; and on Error(reason) with an
error payload whose message is the reason string, unmodified. -/
theorem invoke_complete_callback_contract :
    ∀ st : Status,
      (InvokeCompleteCallback st).length = 1 ∧
      ((InvokeCompleteCallback st = [CallbackInvocation.success]) ↔ st = Status.ok) ∧
      (∀ r, InvokeCompleteCallback (Status.error r) = [CallbackInvocation.failure r]) := by
  intro st
  refine ⟨?_, ?_, fun r => rfl⟩ <;> cases st <;> simp [InvokeCompleteCallback]

/-- C5: GetOpName returns prefix "." userName when a user name is supplied;
otherwise prefix ".noname." N where N is the value of the shared counter
after its increment; the counter starts at zero (the interleaved model
initializes it to 0) and never decreases across any call. -/
theorem getOpName_contract :
    ∀ (pfx userName : String) (c : Nat),
      (GetOpName pfx (some userName) c).1 = pfx ++ "." ++ userName ∧
      (GetOpName pfx none c).1 =
        pfx ++ ".noname." ++ toString ((GetOpName pfx none c).2) ∧
      (GetOpName pfx none c).2 = c + 1 ∧
      (∀ name?, c ≤ (GetOpName pfx name? c).2) ∧
      (runAnonCalls pfx []).counter = 0 := by
  intro pfx u c
  refine ⟨rfl, rfl, rfl, ?_, rfl⟩
  intro n
  cases n <;> simp [GetOpName]

/-- C6: interleaving two concurrent anonymous GetOpName calls as
fetch_add(0), fetch_add(1), load(0), load(1) makes both calls return
"byteps.noname.2": the produced names are not pairwise distinct, contrary to
the claim (the fully sequential schedule of the same two calls does produce
distinct names). -/
theorem concurrent_anonymous_names_collide :
    (runAnonCalls "byteps" [0, 1, 0, 1]).names =
      [(0, "byteps.noname.2"), (1, "byteps.noname.2")] ∧
    ¬ ((runAnonCalls "byteps" [0, 1, 0, 1]).names.map Prod.snd).Nodup ∧
    ((runAnonCalls "byteps" [0, 0, 1, 1]).names.map Prod.snd).Nodup := by
  exact ⟨by decide, by decide, by decide⟩

/-- C3: the BytePSInit task is submitted if and only if IsTensorInitialized
reported false, and the first submitted task is the push stage when the
tensor was already initialized (BytePSInit otherwise). -/
theorem init_task_iff_not_initialized :
    ∀ env : PushPullEnv,
      (("BytePSInit" ∈
          ((byteps_mxnet_push_pull_async env).tasks.map EngineTask.opName)) ↔
        env.tensorInitialized = false) ∧
      ((byteps_mxnet_push_pull_async env).tasks.map EngineTask.opName).head? =
        some (if env.tensorInitialized then "BytePSFirstStage" else "BytePSInit") := by
  intro env
  cases h : env.tensorInitialized <;>
    simp [byteps_mxnet_push_pull_async, h]

/-- C8: in every invocation the push-stage task is submitted with the tensor
var as its only read dependency and an empty write set, and the pull-stage
task with an empty read set and the tensor var as its only write dependency
(they are the last two submissions, in that order). -/
theorem push_pull_dependency_declarations :
    ∀ env : PushPullEnv, ∃ l,
      (byteps_mxnet_push_pull_async env).tasks =
        l ++ [⟨"BytePSFirstStage", [env.tensorVar], []⟩,
              ⟨"BytePSSecondStage", [], [env.tensorVar]⟩] := by
  intro env
  exact ⟨if env.tensorInitialized then [] else [⟨"BytePSInit", [], [env.tensorVar]⟩],
    by cases h : env.tensorInitialized <;> simp [byteps_mxnet_push_pull_async, h]⟩

/-- C4: when the push stage runs with CheckInitialized ok on a non-host
device, a missing staging buffer hits the fatal BPS_CHECK with the exact
message of the source, and with the staging buffer present the fatal branch
is unreachable and EnqueueTensorPush is reached. -/
theorem first_stage_staging_buffer_check :
    ∀ (env : StageEnv) (name : String),
      env.checkInit = Status.ok →
      env.device ≠ CPU_DEVICE_ID →
      (env.cpubuff = false →
        DoFirstStage env name =
          StageOutcome.fatal (name ++ ": cpu buffer not initialized.")) ∧
      (env.cpubuff = true →
        (∀ msg, DoFirstStage env name ≠ StageOutcome.fatal msg) ∧
        DoFirstStage env name =
          StageOutcome.enqueueCalled "PUSH" env.enqueueResult) := by
  intro env name h1 h2
  obtain ⟨ci, dev, cb, er⟩ := env
  simp only at h1 h2
  subst h1
  constructor
  · intro hcb
    subst hcb
    simp [DoFirstStage, h2]
  · intro hcb
    subst hcb
    exact ⟨fun msg => by simp [DoFirstStage], by simp [DoFirstStage]⟩

/-- C4 witness: with CheckInitialized ok, device 1 and the staging buffer
present, DoFirstStage reaches EnqueueTensorPush. -/
theorem first_stage_staging_buffer_check_witness :
    DoFirstStage ⟨Status.ok, 1, true, Status.ok⟩ "byteps.g" =
      StageOutcome.enqueueCalled "PUSH" Status.ok :=
  ((first_stage_staging_buffer_check ⟨Status.ok, 1, true, Status.ok⟩ "byteps.g"
    rfl (by decide)).2 rfl).2

/-- C10: the pull stage performs the same fatal staging-buffer check as the
push stage: on a non-host device with CheckInitialized ok, a missing staging
buffer is fatal with the same message, otherwise EnqueueTensorPull is
reached; DoSecondStage is fatal exactly when DoFirstStage is, at every
environment. -/
theorem second_stage_staging_buffer_check :
    ∀ (env : StageEnv) (name : String),
      (∀ m, DoSecondStage env name = StageOutcome.fatal m ↔
        DoFirstStage env name = StageOutcome.fatal m) ∧
      (env.checkInit = Status.ok →
        env.device ≠ CPU_DEVICE_ID →
        (env.cpubuff = false →
          DoSecondStage env name =
            StageOutcome.fatal (name ++ ": cpu buffer not initialized.")) ∧
        (env.cpubuff = true →
          DoSecondStage env name =
            StageOutcome.enqueueCalled "BROADCAST" env.enqueueResult)) := by
  intro env name
  obtain ⟨ci, dev, cb, er⟩ := env
  constructor
  · intro m
    cases ci <;> by_cases hd : dev ≠ CPU_DEVICE_ID <;> cases cb <;>
      simp [DoSecondStage, DoFirstStage, hd]
  · intro h1 h2
    simp only at h1 h2
    subst h1
    constructor
    · intro hcb
      subst hcb
      simp [DoSecondStage, h2]
    · intro hcb
      subst hcb
      simp [DoSecondStage]

/-- C10 witness: with CheckInitialized ok, device 1 and no staging buffer,
DoSecondStage hits the fatal check with the source's message. -/
theorem second_stage_staging_buffer_check_witness :
    DoSecondStage ⟨Status.ok, 1, false, Status.ok⟩ "byteps.g" =
      StageOutcome.fatal "byteps.g: cpu buffer not initialized." :=
  ((second_stage_staging_buffer_check ⟨Status.ok, 1, false, Status.ok⟩
    "byteps.g").2 rfl (by decide)).1 rfl

end BytePS

namespace BytePS

/-- C1 counterexample: with one initialized tensor, two workers and value 4,
the push stage enqueues and the service reports the error "push failed": the
caller's callback does carry exactly that error, but the tensor's value
after the operation is 2, not the unmodified 4 — the scaling by
1/workerCount happened despite the push error, refuting the claim at this
input. -/
theorem push_error_tensor_still_scaled :
    runPushPull ⟨some "g", 0, true, 2, 0, Status.ok⟩ ⟨Status.ok, 1, true, Status.ok⟩
        (Status.error "push failed") 4 =
      ([CallbackInvocation.failure "push failed"], 2) ∧ (2 : ℚ) ≠ 4 := by
  constructor
  · simp [runPushPull, byteps_mxnet_push_pull_async, DoFirstStage, GetOpName,
      stageCallbackInvocations, InvokeCompleteCallback, CPU_DEVICE_ID]
    norm_num
  · norm_num

/-- C1 amended: when the push stage runs with CheckInitialized ok, the
staging buffer present and a successful enqueue, and the aggregation
service reports an error, the caller observes exactly that error through
the completion callback — but the tensor is nevertheless divided by the
worker count, because byteps_mxnet_push_pull_async performs the division
unconditionally after submitting the tasks, independent of any stage
status. -/
theorem push_error_observed_and_scaled :
    ∀ (env : PushPullEnv) (stage : StageEnv) (r : String) (v : ℚ),
      stage.checkInit = Status.ok →
      stage.cpubuff = true →
      stage.enqueueResult = Status.ok →
      runPushPull env stage (Status.error r) v =
        ([CallbackInvocation.failure r], v / (env.numWorkers : ℚ)) := by
  intro env stage r v h1 h2 h3
  obtain ⟨ci, dev, cb, er⟩ := stage
  simp only at h1 h2 h3
  subst h1; subst h2; subst h3
  simp [runPushPull, byteps_mxnet_push_pull_async, DoFirstStage,
    stageCallbackInvocations, InvokeCompleteCallback]

/-- C1 amended witness: at a concrete invocation (4 workers, value 8,
service error "oops") the callback carries the error and the value is
8 divided by 4. -/
theorem push_error_observed_and_scaled_witness :
    runPushPull ⟨some "g", 0, true, 4, 0, Status.ok⟩ ⟨Status.ok, 1, true, Status.ok⟩
        (Status.error "oops") 8 =
      ([CallbackInvocation.failure "oops"],
        8 / (((⟨some "g", 0, true, 4, 0, Status.ok⟩ : PushPullEnv).numWorkers : ℚ))) :=
  push_error_observed_and_scaled ⟨some "g", 0, true, 4, 0, Status.ok⟩
    ⟨Status.ok, 1, true, Status.ok⟩ "oops" 8 rfl rfl rfl

/-- C2 counterexample: at an invocation during which CheckInitialized would
report the error "BytePS has not been initialized", all three tasks are
still submitted to the engine — no precondition is checked synchronously
before submission, refuting the claim at this input. -/
theorem tasks_submitted_without_sync_checks :
    (⟨none, 0, false, 2, 0, Status.error "BytePS has not been initialized"⟩ :
        PushPullEnv).checkInit ≠ Status.ok ∧
    (byteps_mxnet_push_pull_async
        ⟨none, 0, false, 2, 0,
          Status.error "BytePS has not been initialized"⟩).tasks.map
        EngineTask.opName =
      ["BytePSInit", "BytePSFirstStage", "BytePSSecondStage"] := by
  exact ⟨by decide, by decide⟩

/-- C2 amended: byteps_mxnet_push_pull_async submits its tasks regardless of
the runtime-initialized status (which it never consults synchronously, and
the tensor handle is never null-checked); the runtime-initialized
precondition is instead checked at the start of each stage body when the
task later executes, and each of the three stage bodies then throws that
exact error before doing anything else. -/
theorem preconditions_checked_in_stages :
    ∀ (env : PushPullEnv) (stage : StageEnv) (r : String) (name : String),
      ((byteps_mxnet_push_pull_async env).tasks.map EngineTask.opName =
        (if env.tensorInitialized then [] else ["BytePSInit"]) ++
          ["BytePSFirstStage", "BytePSSecondStage"]) ∧
      (stage.checkInit = Status.error r →
        DoInit stage = StageOutcome.thrown r ∧
        DoFirstStage stage name = StageOutcome.thrown r ∧
        DoSecondStage stage name = StageOutcome.thrown r) := by
  intro env stage r name
  constructor
  · cases h : env.tensorInitialized <;> simp [byteps_mxnet_push_pull_async, h]
  · intro hci
    obtain ⟨ci, dev, cb, er⟩ := stage
    simp only at hci
    subst hci
    exact ⟨rfl, rfl, rfl⟩

/-- C2 amended witness: a concrete task list is submitted while
CheckInitialized reports an error, and the push stage body, run under that
error, throws it. -/
theorem preconditions_checked_in_stages_witness :
    DoFirstStage ⟨Status.error "BytePS has not been initialized", -1, false,
        Status.ok⟩ "byteps.noname.1" =
      StageOutcome.thrown "BytePS has not been initialized" :=
  ((preconditions_checked_in_stages
      ⟨none, 0, false, 2, 0, Status.error "BytePS has not been initialized"⟩
      ⟨Status.error "BytePS has not been initialized", -1, false, Status.ok⟩
      "BytePS has not been initialized" "byteps.noname.1").2 rfl).2.1

/-- C9: in every execution of the submitted tasks that respects the host
scheduler's dependency contract, the pull task (last submitted) starts
strictly after the push task (second to last) finishes, and when the init
task was submitted, init finishes before push starts and push finishes
before pull starts: Initializer, Push, Pull in that order. -/
theorem pull_after_push_ordering :
    ∀ (env : PushPullEnv) (start fin : Nat → Nat),
      respectsDeps (byteps_mxnet_push_pull_async env).tasks start fin →
      (fin ((byteps_mxnet_push_pull_async env).tasks.length - 2) <
        start ((byteps_mxnet_push_pull_async env).tasks.length - 1)) ∧
      (env.tensorInitialized = false →
        fin 0 < start 1 ∧ fin 1 < start 2) := by
  intro env start fin hd
  cases h : env.tensorInitialized
  · have hlen : (byteps_mxnet_push_pull_async env).tasks.length = 3 := by
      simp [byteps_mxnet_push_pull_async, h]
    have h12 : fin 1 < start 2 := by
      apply hd 1 2 (by omega) (by omega)
      simp [byteps_mxnet_push_pull_async, h, conflict]
    have h01 : fin 0 < start 1 := by
      apply hd 0 1 (by omega) (by omega)
      simp [byteps_mxnet_push_pull_async, h, conflict]
    rw [hlen]
    exact ⟨h12, fun _ => ⟨h01, h12⟩⟩
  · have hlen : (byteps_mxnet_push_pull_async env).tasks.length = 2 := by
      simp [byteps_mxnet_push_pull_async, h]
    have h01 : fin 0 < start 1 := by
      apply hd 0 1 (by omega) (by omega)
      simp [byteps_mxnet_push_pull_async, h, conflict]
    rw [hlen]
    exact ⟨h01, fun hc => by simp [h] at hc⟩

/-- C9 witness: the instantaneous execution that runs task i at instant i
respects the dependency contract for a concrete uninitialized-tensor
invocation, and there the conclusion evaluates to 1 < 2. -/
theorem pull_after_push_ordering_witness :
    (byteps_mxnet_push_pull_async ⟨none, 0, false, 2, 5, Status.ok⟩).tasks.length - 2 <
      (byteps_mxnet_push_pull_async ⟨none, 0, false, 2, 5, Status.ok⟩).tasks.length - 1 :=
  (pull_after_push_ordering ⟨none, 0, false, 2, 5, Status.ok⟩
    (fun i => i) (fun i => i) (fun _ _ hij _ _ => hij)).1

end BytePS
